import Mathlib

/-
Verification development for the pyDCX repository (DCX2496 package): a
shallow embedding of the wire-protocol codec (device.py, responses.py,
constants.py, dump_lut.py) and of the multiplexing daemon and connectors
(daemon.py, connector.py).  Byte strings are modelled as List Nat, Python
dicts keyed by channel as functions Nat -> Option _, and Python exceptions
as Except String _.
-/

/-! ### constants.py -/

/-- constants.py: DCX_HEADER, the 4-byte identification header. -/
def DCX_HEADER : List Nat := [0xF0, 0x00, 0x20, 0x32]

/-- constants.py: SEPARATOR_BYTE between device ID and function. -/
def SEPARATOR_BYTE : Nat := 0x0E

/-- constants.py: TERMINATOR_BYTE, the final byte of every frame.
daemon.py refers to a constant named TERMINATOR which src/DCX2496/constants.py
does not define; per the spec every frame ends with this fixed terminator
byte, so both names denote 0xF7 here. -/
def TERMINATOR_BYTE : Nat := 0xF7

/-- constants.py: FUNCTION_BYTE, index of the function byte in a frame. -/
def FUNCTION_BYTE : Nat := 6

/-- constants.py: FunctionBytes.SEARCH. -/
def FunctionBytes.SEARCH : Nat := 0x40

/-- constants.py: FunctionBytes.PING. -/
def FunctionBytes.PING : Nat := 0x44

/-- constants.py: FunctionBytes.DUMP. -/
def FunctionBytes.DUMP : Nat := 0x50

/-! ### responses.py : helpers and Response -/

/-- responses.py def is underscore-is_bit: bool(byte and-mask (1 shl bit)). -/
def is_bit (byte bit : Nat) : Bool := byte &&& (1 <<< bit) != 0

/-- responses.py def underscore-clear_bit: byte AND NOT (1 shl bit).  On a
nonnegative integer this clears exactly the selected bit, which equals
xor-ing away the masked bit (Nat has no two-complement NOT). -/
def clear_bit (byte bit : Nat) : Nat := byte ^^^ (byte &&& (1 <<< bit))

/-- responses.py Response.__init__ assertion:
data.startswith(DCX_HEADER) and len(data) > 8 and data[-1] == TERMINATOR_BYTE. -/
def response_valid (data : List Nat) : Bool :=
  DCX_HEADER.isPrefixOf data && decide (data.length > 8)
    && (data.getLast? == some TERMINATOR_BYTE)

/-- Constructing a Response: the assertion either passes (the data is held)
or the constructor fails. -/
def mkResponse (data : List Nat) : Option (List Nat) :=
  if response_valid data then some data else none

/-- responses.py Response.payload: data[6:-1]. -/
def response_payload (data : List Nat) : List Nat := (data.drop 6).dropLast

/-! ### device.py : frame encoding -/

/-- device.py Device.__do_call: build
DCX_HEADER ++ [device_id] ++ [0x0E] ++ [function] ++ data ++ [0xF7]
(data omitted when None). -/
def do_call (device_id function : Nat) (data : Option (List Nat)) : List Nat :=
  DCX_HEADER ++ [device_id, SEPARATOR_BYTE, function] ++ data.getD [] ++ [TERMINATOR_BYTE]

/-! ### responses.py : SearchResponse -/

/-- responses.py SearchResponse: holds the raw frame and the device_id
extracted at offset 4. -/
structure SearchResponseS where
  data : List Nat
  device_id : Nat

/-- responses.py SearchResponse.__init__: assert len(data) == 26, then the
Response assertion, then device_id = data[4]. -/
def mkSearchResponse (data : List Nat) : Option SearchResponseS :=
  if data.length = 26 then
    if response_valid data then some ⟨data, data.getD 4 0⟩ else none
  else none

/-- responses.py SearchResponse.shown_id: device_id + 1. -/
def shown_id (r : SearchResponseS) : Nat := r.device_id + 1

/-! ### responses.py : PingResponse -/

/-- responses.py PingResponse._PingData: limited = bit 5 of the status byte,
level = the status byte with bit 5 cleared. -/
structure PingDataS where
  limited : Bool
  level : Nat
deriving DecidableEq

/-- responses.py _PingData.__init__ applied to one status byte. -/
def mk_ping_data (b : Nat) : PingDataS := ⟨is_bit b 5, clear_bit b 5⟩

/-- The per-channel decode performed by the PingResponse.__init__ loop:
for channel in range(Channel.INPUT_A, Channel.OUTPUT_6 + 1) = 1..10,
the status byte is self.data[8 + channel]. -/
def ping_channels (data : List Nat) : List (Nat × PingDataS) :=
  (List.range' 1 10).map (fun ch => (ch, mk_ping_data (data.getD (8 + ch) 0)))

/-- responses.py PingResponse.__init__: assert len(data) == 25, then the
Response assertion, then fill the channel table. -/
def mkPingResponse (data : List Nat) : Option (List (Nat × PingDataS)) :=
  if data.length = 25 then
    if response_valid data then some (ping_channels data) else none
  else none

/-- The class-level dict PingResponse.channels, shared by every instance:
modelled as a map from channel number to the ping data last written for it. -/
abbrev PingClassState := Nat → Option PingDataS

/-- The writes PingResponse.__init__ performs into the shared class dict:
self.channels[Channel(channel)] = _PingData(self.data[8 + channel])
for channel = 1..10, applied in loop order over the incoming state. -/
def pingInitChannels (st : PingClassState) (data : List Nat) : PingClassState :=
  (List.range' 1 10).foldl
    (fun s ch => fun k => if k = ch then some (mk_ping_data (data.getD (8 + ch) 0)) else s k)
    st

/-- Constructing a PingResponse, tracking the shared class dict: the length
and frame assertions run first; on success the constructor mutates the
class-level channels dict. -/
def pingInitShared (st : PingClassState) (data : List Nat) : Option PingClassState :=
  if data.length = 25 then
    if response_valid data then some (pingInitChannels st data) else none
  else none

/-! ### dump_lut.py and device.py : dump payload reconstruction -/

/-- dump_lut.py segment descriptor: either a plain byte index (the 7-bit
segment) or a (byte index, bit index) pair selecting a single bit. -/
inductive Segment where
  | plain (byteIdx : Nat)
  | bitOf (byteIdx bitIdx : Nat)

/-- dump_lut.py dump_lut["gain"]: eleven per-channel descriptor lists,
indexed by channel number 0 (SETUP, empty) through 10 (OUTPUT_6). -/
def gain_lut : List (List Segment) :=
  [ [],
    [.plain 0x92, .bitOf 0x94 5, .bitOf 0x93 0],
    [.plain 0x120, .bitOf 0x124 3, .bitOf 0x121 0],
    [.plain 0x1AE, .bitOf 0x1B4 1, .bitOf 0x1AF 0],
    [.plain 0x23B, .bitOf 0x23C 6, .bitOf 0x23D 0],
    [.plain 0x2C9, .bitOf 0x2CC 4, .bitOf 0x2CA 0],
    [.plain 0x372, .bitOf 0x374 5, .bitOf 0x373 0],
    [.plain 0x42A, .bitOf 0x42B 6, .bitOf 0x42C 0],
    [.plain 0x4D4, .bitOf 0x4DB 0, .bitOf 0x4D5 0],
    [.plain 0x57D, .bitOf 0x583 1, .bitOf 0x57E 0],
    [.plain 0x626, .bitOf 0x62B 2, .bitOf 0x627 0] ]

/-- device.py _parse_dump_with_lut inner loop, reconstructing one value:
for idx, mapping in enumerate(segs):
  shift = min(1, idx) * 7 + 1 * max(0, idx - 1)
  tuple mapping:  value += (dump[mapping[0]] AND (1 shl mapping[1])) shl shift
  plain mapping:  value += dump[mapping[0]] shl shift
(indices are in range for the payloads considered here, so list indexing is
modelled with getD). -/
def parse_value (dump : List Nat) (segs : List Segment) : Nat :=
  segs.enum.foldl
    (fun value p =>
      let shift := min 1 p.1 * 7 + (p.1 - 1)
      match p.2 with
      | .plain b => value + (dump.getD b 0 <<< shift)
      | .bitOf b k => value + ((dump.getD b 0 &&& (1 <<< k)) <<< shift))
    0

/-! ### daemon.py : dump cache and handle_command -/

/-- daemon.py class attribute dump_cache = ((0, None), (0, None)) : a Python
tuple of tuples, each slot pairing a last-fetch timestamp with the cached
response.  Tuples are immutable. -/
def dump_cache_init : (Int × Option (List Nat)) × (Int × Option (List Nat)) :=
  ((0, none), (0, none))

/-- Python truthiness of the daemon caching attribute (None or an int TTL):
false for None and for 0. -/
def truthy : Option Int → Bool
  | none => false
  | some c => c != 0

/-- daemon.py DCXDaemon.handle_command.  The transport round-trip
self.connector.handle_command is a parameter; the first component counts how
many transport round-trips the call performs.  On a cache miss the code runs
the round-trip and then executes dump_cache[part][1] = resp, which is item
assignment on an immutable tuple and raises TypeError. -/
def handle_command (caching : Option Int) (now : Int)
    (transport : List Nat → Option (List Nat))
    (cache : (Int × Option (List Nat)) × (Int × Option (List Nat)))
    (command : List Nat) :
    Nat × Except String (Option (List Nat) ×
      ((Int × Option (List Nat)) × (Int × Option (List Nat)))) :=
  if truthy caching && (command.getD FUNCTION_BYTE 0 == FunctionBytes.DUMP) then
    let part := command.getD (FUNCTION_BYTE + 3) 0
    match (if part == 0 then some cache.1 else if part == 1 then some cache.2 else none) with
    | none => (0, .error "IndexError")
    | some slot =>
      let ttl := caching.getD 0
      if slot.1 > now - ttl then
        (0, .ok (slot.2, cache))
      else
        let _resp := transport command
        (1, .error "TypeError: tuple does not support item assignment")
  else
    (1, .ok (transport command, cache))

/-! ### daemon.py : per-client buffers, read_client, write_client, run -/

/-- daemon.py per-client connection state: (inbound buffer, outbound buffer),
stored as a Python tuple of two bytearrays. -/
structure Conn where
  inbuf : List Nat
  outbuf : List Nat
deriving DecidableEq

/-- daemon.py DCXDaemon.read_client with the bytes recv returned as a
parameter.  Empty recv data means the peer closed: the client is dropped
(result ok none).  Otherwise the data is appended to the inbound buffer
(a bytearray method call, which succeeds); when the buffer then holds a
complete frame (length at least 8 and a terminator byte present) the code
executes self.connections[sock][0] = buffer-slice, which is item assignment
on the connection tuple and raises TypeError before any dispatch. -/
def read_client (c : Conn) (recvd : List Nat) : Except String (Option Conn) :=
  if recvd.isEmpty then .ok none
  else
    let buf := c.inbuf ++ recvd
    if decide (buf.length ≥ 8) && buf.contains TERMINATOR_BYTE then
      .error "TypeError: tuple does not support item assignment"
    else .ok (some ⟨buf, c.outbuf⟩)

/-- daemon.py DCXDaemon.write_client, with the success of sock.sendall as a
parameter: a nonempty outbound buffer is flushed and cleared, or the send
raises. -/
def write_client (sendOk : Bool) (c : Conn) : Except String Conn :=
  if c.outbuf.isEmpty then .ok c
  else if sendOk then .ok ⟨c.inbuf, []⟩
  else .error "send failed"

/-- The connections dict of the daemon, keyed by client socket (client
sockets are numbered; the listening server socket is kept separate). -/
abbrev Conns := List (Nat × Conn)

/-- Python del self.connections[sock]. -/
def removeConn (conns : Conns) (s : Nat) : Conns :=
  List.filter (fun p => p.1 != s) conns

/-- Replacing the connection state stored for one client socket. -/
def setConn (conns : Conns) (s : Nat) (c : Conn) : Conns :=
  List.map (fun p => if p.1 = s then (s, c) else p) conns

/-- daemon.py run, first for-loop of one iteration: for sock in readable,
accept on the server socket, otherwise read_client(sock).  There is no
try/except here, so an exception raised by read_client propagates and
aborts the iteration (and run itself). -/
def read_phase (server freshId : Nat) (recvd : Nat → List Nat) :
    List Nat → Conns → Except String Conns
  | [], conns => .ok conns
  | s :: rest, conns =>
    if s = server then
      read_phase server freshId recvd rest (conns ++ [(freshId, ⟨[], []⟩)])
    else
      match List.lookup s conns with
      | none => .error "KeyError"
      | some c =>
        match read_client c (recvd s) with
        | .error e => .error e
        | .ok none => read_phase server freshId recvd rest (removeConn conns s)
        | .ok (some c2) => read_phase server freshId recvd rest (setConn conns s c2)

/-- daemon.py run, second for-loop of one iteration: for sock in writeable,
try write_client(sock) except: close the socket and delete its state.  An
exception inside write_client therefore only drops that client.  (A socket
no longer present would make the except-clause del raise KeyError, which is
uncaught.) -/
def write_phase (sendOk : Nat → Bool) : List Nat → Conns → Except String Conns
  | [], conns => .ok conns
  | s :: rest, conns =>
    match List.lookup s conns with
    | none => .error "KeyError"
    | some c =>
      match write_client (sendOk s) c with
      | .ok c2 => write_phase sendOk rest (setConn conns s c2)
      | .error _ => write_phase sendOk rest (removeConn conns s)

/-- One iteration of the daemon.py run event loop: the read phase over the
readable sockets followed by the write phase over the writeable sockets.
An exception escaping the read phase terminates run. -/
def run_iteration (server freshId : Nat) (recvd : Nat → List Nat) (sendOk : Nat → Bool)
    (readable writeable : List Nat) (conns : Conns) : Except String Conns :=
  match read_phase server freshId recvd readable conns with
  | .error e => .error e
  | .ok conns2 => write_phase sendOk writeable conns2

/-! ### connector.py : DaemonConnector.read_response -/

/-- connector.py DaemonConnector.read_response.  The successive results of
sock.recv(256) are a parameter (chunk i is what the i-th recv returns; an
empty chunk models recv returning zero bytes on a closed peer).  The Python
loop is while True with no bound, so it is modelled with explicit fuel:
none means the loop is still running after that many recv calls. -/
def read_response_go (chunks : Nat → List Nat) : Nat → List Nat → Nat → Option (List Nat)
  | _, _, 0 => none
  | i, data, fuel + 1 =>
    let buf := chunks i
    if buf.isEmpty then read_response_go chunks (i + 1) data fuel
    else
      let data2 := data ++ buf
      if buf.contains TERMINATOR_BYTE then some data2
      else read_response_go chunks (i + 1) data2 fuel

/-- connector.py DaemonConnector.read_response, started on the first chunk
with an empty accumulator. -/
def read_response (chunks : Nat → List Nat) (fuel : Nat) : Option (List Nat) :=
  read_response_go chunks 0 [] fuel

/-! ### daemon.py / connector.py : unix:// connection strings -/

/-- The characters of the literal prefix of the regex unix://(.+) used by
both daemon.py DCXDaemon.__init__ and connector.py DaemonConnector.__init__. -/
def unixScheme : List Char := ['u', 'n', 'i', 'x', ':', '/', '/']

/-- Python re.match of the pattern unix://(.+) and the value match.group()
that both call sites pass on: group() with no argument is group 0, the
WHOLE matched text, i.e. the prefix together with the greedy run of
non-newline characters after it (not the capture group 1 path alone). -/
def re_match_unix_group0 (host : List Char) : Option (List Char) :=
  if unixScheme.isPrefixOf host then
    let rest := (host.drop 7).takeWhile (fun c => c != '\n')
    if rest.isEmpty then none else some (unixScheme ++ rest)
  else none

/-- daemon.py DCXDaemon.__init__: for a unix:// host string, the AF_UNIX
address the daemon binds (and the path it checks/removes beforehand) is
match.group(). -/
def daemon_bind_address (host : List Char) : Option (List Char) :=
  re_match_unix_group0 host

/-- connector.py DaemonConnector.__init__: for a unix:// connection string,
the AF_UNIX address the client connects to is match.group(). -/
def connector_unix_address (connection : List Char) : Option (List Char) :=
  re_match_unix_group0 connection

/-! ### Concrete inputs used by the claim theorems -/

/-- A complete PING command frame for device 0 (payload 00 00), as built by
device.py Device.ping via do_call: ten bytes ending in the terminator. -/
def ping_command_frame : List Nat := do_call 0 FunctionBytes.PING (some [0x00, 0x00])

/-- The DUMP part-0 command frame built by device.py Device.dump(0):
payload 01 00 00. -/
def dump_part0_command : List Nat := do_call 0 FunctionBytes.DUMP (some [0x01, 0x00, 0x00])

/-- A synthetic dump payload for claim C2: byte 0x92 (the gain low-7 segment
of input channel A) holds 0x7F, byte 0x94 has bit 5 set (the eighth-bit
segment), byte 0x93 is zero (the ninth-bit segment). -/
def c2_dump : List Nat :=
  (List.range 0x96).map (fun i => if i = 0x92 then 0x7F else if i = 0x94 then 0x20 else 0)

/-- Daemon connection table with two idle clients, used by the C5 theorems. -/
def c5_conns : Conns := [(1, ⟨[], []⟩), (2, ⟨[], []⟩)]

/-- Readable data for the C5 scenario: client 1 delivers a complete frame,
client 2 a partial byte. -/
def c5_recvd : Nat → List Nat := fun s => if s = 1 then ping_command_frame else [0x01]

/-- A 26-byte search response frame with device-id byte 3 at offset 4
(18 payload bytes), as in the spec example. -/
def search_frame_26 : List Nat := do_call 3 0x00 (some (List.replicate 18 0))

/-- A 25-byte frame that is otherwise well-formed (17 payload bytes). -/
def search_frame_25 : List Nat := do_call 3 0x00 (some (List.replicate 17 0))

/-- A 27-byte frame that is otherwise well-formed (19 payload bytes). -/
def search_frame_27 : List Nat := do_call 3 0x00 (some (List.replicate 19 0))

/-- A 25-byte ping response frame whose status bytes are all zero. -/
def ping_frame_a : List Nat := do_call 0 0x04 (some (List.replicate 17 0))

/-- A 25-byte ping response frame whose channel-1 status byte (frame offset
9, payload position 2) is 0b00100101. -/
def ping_frame_b : List Nat := do_call 0 0x04 (some ([0, 0, 0x25] ++ List.replicate 14 0))

/-- A unix:// host string, as a character list: unix:///tmp/dcx . -/
def c6_host : List Char :=
  ['u', 'n', 'i', 'x', ':', '/', '/', '/', 't', 'm', 'p', '/', 'd', 'c', 'x']

/-! ### Helper lemmas -/

/-- An encoded call laid out as an explicit cons chain. -/
theorem do_call_cons (d f : Nat) (p : List Nat) :
    do_call d f (some p) =
      0xF0 :: 0x00 :: 0x20 :: 0x32 :: d :: SEPARATOR_BYTE :: f :: (p ++ [TERMINATOR_BYTE]) :=
  rfl

/-- The Response assertion on an encoded call succeeds exactly for a
nonempty payload (the frame is 8 + payload-length bytes and the assertion
demands strictly more than 8). -/
theorem response_valid_do_call (d f : Nat) (p : List Nat) :
    response_valid (do_call d f (some p)) = !p.isEmpty := by
  cases p with
  | nil => rfl
  | cons a as =>
    have hcons : do_call d f (some (a :: as)) =
        (0xF0 :: 0x00 :: 0x20 :: 0x32 :: d :: 0x0E :: f :: a :: as) ++ [0xF7] := by
      rw [do_call_cons]; simp [SEPARATOR_BYTE, TERMINATOR_BYTE]
    simp only [response_valid, hcons]
    rw [List.getLast?_concat]
    simp [DCX_HEADER, List.isPrefixOf, TERMINATOR_BYTE]

/-! ### Claim C1 -/

/-- Claim C1, counterexample: encoding device 0, function 0x44 with the
EMPTY payload yields an 8-byte frame that the Response assertion rejects
(len > 8 fails); and for payload [0x01] the decoded Response.payload is
[0x44, 0x01] — the function byte is prepended — not [0x01].  So decode of
encode neither succeeds on an empty payload nor returns the payload alone. -/
theorem c1_counterexample :
    mkResponse (do_call 0 0x44 (some [])) = none ∧
    response_payload (do_call 0 0x44 (some [0x01])) ≠ [0x01] := by
  decide

/-- Claim C1, amended: for every device id, function byte and payload p, the
frame built by Device.__do_call is accepted by the Response constructor
exactly when p is nonempty, and the decode then recovers the device id at
offset 4 and the function byte at offset 6, while Response.payload
(data[6:-1]) returns the function byte followed by p rather than p itself;
for empty p the 8-byte frame is rejected. -/
theorem c1_encode_decode_amended (d f : Nat) (p : List Nat) :
    mkResponse (do_call d f (some p)) =
      (if p.isEmpty then none else some (do_call d f (some p))) ∧
    (do_call d f (some p)).getD 4 0 = d ∧
    (do_call d f (some p)).getD 6 0 = f ∧
    response_payload (do_call d f (some p)) = f :: p := by
  refine ⟨?_, ?_, ?_, ?_⟩
  · rw [mkResponse, response_valid_do_call]
    cases p <;> simp
  · rw [do_call_cons]; rfl
  · rw [do_call_cons]; rfl
  · rw [response_payload, do_call_cons]
    show (f :: (p ++ [TERMINATOR_BYTE])).dropLast = f :: p
    rw [← List.cons_append, List.dropLast_concat]

/-! ### Claim C7 -/

/-- Claim C7: constructing a SearchResponse succeeds exactly for data of
length 26 that passes the frame assertion (lengths 25 and 27 are rejected),
and the decoded shown_id is the raw device-id byte at offset 4 plus one; in
particular a valid 26-byte frame with device-id byte 3 yields shown_id 4. -/
theorem c7_search_decode (data : List Nat) :
    ((mkSearchResponse data).map shown_id =
      if data.length = 26 ∧ response_valid data = true
      then some (data.getD 4 0 + 1) else none) ∧
    (mkSearchResponse search_frame_26).map shown_id = some 4 ∧
    (mkSearchResponse search_frame_25).isSome = false ∧
    (mkSearchResponse search_frame_27).isSome = false := by
  refine ⟨?_, by decide, by decide, by decide⟩
  by_cases h1 : data.length = 26
  · by_cases h2 : response_valid data
    · simp [mkSearchResponse, h1, h2, shown_id]
    · simp [mkSearchResponse, h1, h2]
  · simp [mkSearchResponse, h1]

/-! ### Claim C2 -/

/-- Claim C2, code evaluation at the failing input: with the gain segments
of input channel A set to low7 = 0x7F (byte 0x92), eighth bit = 1 (bit 5 of
byte 0x94) and ninth bit = 0 (bit 0 of byte 0x93), the reconstruction in
device.py computes (dump[0x94] AND 0x20) shl 7 = 0x20 shl 7 = 0x1000 for
the second segment — the selected bit is not shifted down to bit 0 first —
so the value is 0x107F, not the 0xFF = 0x7F + (1 shl 7) the claim states. -/
theorem c2_gain_bit_segment :
    parse_value c2_dump (gain_lut.getD 1 []) = 0x107F ∧ (0x107F : Nat) ≠ 0xFF := by
  decide

/-! ### Claim C3 -/

/-- Claim C3, code evaluation at the failing input: with caching enabled
(TTL 600) and an empty cache, a Dump part-0 command performs the transport
round-trip (count 1) and then raises TypeError on
dump_cache[part][1] = resp, because the cache slots are immutable tuples;
the fresh response is neither stored nor returned. -/
theorem c3_cache_store_raises :
    handle_command (some 600) 1000000 (fun _ => some [0xF7]) dump_cache_init
        dump_part0_command
      = (1, .error "TypeError: tuple does not support item assignment") :=
  rfl

/-! ### Claim C4 -/

/-- Claim C4, code evaluation at the failing input: a client buffer holding
two coalesced complete PING command frames.  As soon as the buffer holds a
complete frame (length at least 8 with a terminator byte), read_client
executes self.connections[sock][0] = buffer-slice, item assignment on the
connection tuple, and raises TypeError — no frame is extracted and no
remainder is preserved.  (Even disregarding that, the code would set the
buffer to buf[idx:-1] — keeping the terminator and dropping the final byte —
and then clear() it, discarding the coalesced second frame.) -/
theorem c4_extract_raises :
    read_client ⟨[], []⟩ (ping_command_frame ++ ping_command_frame)
      = .error "TypeError: tuple does not support item assignment" :=
  rfl

/-! ### Claim C5 -/

/-- Claim C5, counterexample: two clients are connected and both readable;
processing client 1, whose buffer holds a complete frame, raises inside
read_client, and because run() has no try/except around the read phase the
whole event-loop iteration aborts — client 2 is never processed and the
loop terminates, instead of only client 1 being dropped with the daemon
still running.  (The transport round-trip named by the claim is never even
reached: read_client raises on the buffer reassignment first.) -/
theorem c5_counterexample :
    run_iteration 0 3 c5_recvd (fun _ => true) [1, 2] [] c5_conns
      = .error "TypeError: tuple does not support item assignment" :=
  rfl

/-- Claim C5, amended: error containment in the daemon event loop is
one-sided.  Errors raised while flushing a client outbound buffer
(write_client) are caught: only that client is dropped and the iteration
completes with every other connection record unchanged.  But any error
raised while processing a readable client propagates out of the loop and
terminates run — and with a complete frame present read_client always
raises TypeError before any transport round-trip. -/
theorem c5_error_containment :
    (∀ (conns : Conns) (w server freshId : Nat) (c : Conn) (sendOk : Nat → Bool)
        (recvd : Nat → List Nat),
      List.lookup w conns = some c → c.outbuf ≠ [] → sendOk w = false →
      run_iteration server freshId recvd sendOk [] [w] conns
        = .ok (removeConn conns w)) ∧
    (∀ (conns : Conns) (r server freshId : Nat) (c : Conn) (sendOk : Nat → Bool)
        (recvd : Nat → List Nat) (rest writeable : List Nat),
      r ≠ server → List.lookup r conns = some c → recvd r ≠ [] →
      (c.inbuf ++ recvd r).length ≥ 8 →
      (c.inbuf ++ recvd r).contains TERMINATOR_BYTE = true →
      run_iteration server freshId recvd sendOk (r :: rest) writeable conns
        = .error "TypeError: tuple does not support item assignment") := by
  constructor
  · intro conns w server freshId c sendOk recvd hw hob hs
    have hne : c.outbuf.isEmpty = false := by
      cases hc : c.outbuf with
      | nil => exact absurd hc hob
      | cons x xs => rfl
    simp [run_iteration, read_phase, write_phase, hw, write_client, hne, hs]
  · intro conns r server freshId c sendOk recvd rest writeable hr hl hrecv hlen hterm
    have hne : (recvd r).isEmpty = false := by
      cases hc : recvd r with
      | nil => exact absurd hc hrecv
      | cons x xs => rfl
    have hlen2 : 8 ≤ c.inbuf.length + (recvd r).length := by simpa using hlen
    have hterm2 : TERMINATOR_BYTE ∈ c.inbuf ∨ TERMINATOR_BYTE ∈ recvd r := by
      simpa using hterm
    have hrc : read_client c (recvd r)
        = .error "TypeError: tuple does not support item assignment" := by
      simp [read_client, hne, hlen2, hterm2]
    simp [run_iteration, read_phase, hr, hl, hrc]

/-- Claim C5, witness for the amended theorem: a failing flush on client 1
drops exactly client 1 and the iteration still completes; a readable client
with a complete frame aborts the iteration with TypeError. -/
theorem c5_containment_witness :
    run_iteration 0 3 (fun _ => []) (fun _ => false) [] [1]
        [(1, ⟨[], [0xF7]⟩), (2, ⟨[], []⟩)]
      = .ok (removeConn [(1, ⟨[], [0xF7]⟩), (2, ⟨[], []⟩)] 1) ∧
    run_iteration 0 3 c5_recvd (fun _ => false) [1] [] c5_conns
      = .error "TypeError: tuple does not support item assignment" :=
  ⟨c5_error_containment.1 [(1, ⟨[], [0xF7]⟩), (2, ⟨[], []⟩)] 1 0 3 ⟨[], [0xF7]⟩
      (fun _ => false) (fun _ => []) rfl (by decide) rfl,
   c5_error_containment.2 c5_conns 1 0 3 ⟨[], []⟩ (fun _ => false) c5_recvd [] []
      (by decide) rfl (by decide) (by decide) (by decide)⟩

/-! ### Claim C6 -/

/-- Claim C6: for the host string unix:///tmp/dcx both the daemon bind
address (also used for the pre-bind exists/remove check) and the connector
connect address are match.group() — the WHOLE string including the unix://
scheme prefix — not the path /tmp/dcx after the prefix that the claim
states (match.group() is group 0; the path alone would be group(1)). -/
theorem c6_unix_group0 :
    daemon_bind_address c6_host = some c6_host ∧
    connector_unix_address c6_host = some c6_host ∧
    c6_host ≠ c6_host.drop 7 ∧
    c6_host.drop 7 = ['/', 't', 'm', 'p', '/', 'd', 'c', 'x'] := by
  decide

/-! ### Claim C8 -/

/-- Claim C8: PingResponse construction succeeds exactly for data of length
25 passing the frame assertion; for every status byte the decoded limited
flag is bit 5 and the decoded level is the byte with bit 5 cleared (bitwise:
level bit i equals byte bit i except at i = 5, which is cleared); in
particular status byte 0b00100101 decodes to level 5 with limited = true
and 0b00000101 to level 5 with limited = false. -/
theorem c8_ping_status (data : List Nat) (b i : Nat) :
    ((mkPingResponse data).isSome ↔ (data.length = 25 ∧ response_valid data = true)) ∧
    ((mk_ping_data b).limited = b.testBit 5) ∧
    ((mk_ping_data b).level.testBit i = (b.testBit i && !(i == 5))) ∧
    mk_ping_data 0b00100101 = ⟨true, 5⟩ ∧
    mk_ping_data 0b00000101 = ⟨false, 5⟩ := by
  refine ⟨?_, ?_, ?_, by decide, by decide⟩
  · by_cases h1 : data.length = 25 <;> by_cases h2 : response_valid data <;>
      simp [mkPingResponse, h1, h2]
  · show (b &&& (1 <<< 5) != 0) = b.testBit 5
    rw [Nat.shiftLeft_eq, one_mul, Nat.and_two_pow]
    cases h : b.testBit 5 <;> simp
  · show (b ^^^ (b &&& (1 <<< 5))).testBit i = (b.testBit i && !(i == 5))
    rw [Nat.shiftLeft_eq, one_mul, Nat.testBit_xor, Nat.testBit_and,
      Nat.testBit_two_pow]
    by_cases h : i = 5
    · subst h; cases hb : b.testBit 5 <;> simp [hb]
    · simp [h, Ne.symm h]

/-! ### Claim C9 -/

/-- Helper for claim C9: whenever the read_response loop returns, some
received chunk contained the terminator byte. -/
theorem read_response_go_some (chunks : Nat → List Nat) :
    ∀ (fuel i : Nat) (data r : List Nat),
      read_response_go chunks i data fuel = some r →
      ∃ j, (chunks j).contains TERMINATOR_BYTE = true := by
  intro fuel
  induction fuel with
  | zero => intro i data r h; simp [read_response_go] at h
  | succ n ih =>
    intro i data r h
    simp only [read_response_go] at h
    split at h
    · exact ih _ _ _ h
    · split at h
      · next hc => exact ⟨i, hc⟩
      · exact ih _ _ _ h

/-- Helper for claim C9: with the peer closed, so that every recv returns
zero bytes, the loop never finishes, whatever the fuel. -/
theorem read_response_go_closed :
    ∀ (fuel i : Nat) (data : List Nat),
      read_response_go (fun _ => []) i data fuel = none := by
  intro fuel
  induction fuel with
  | zero => intro i data; rfl
  | succ n ih => intro i data; simp [read_response_go, ih]

/-- Claim C9: the DaemonConnector.read_response loop terminates only when a
received chunk contains the terminator byte 0xF7; in particular when the
peer has closed the connection and every recv returns zero bytes, the loop
runs forever (an empty read is not treated as end of data). -/
theorem c9_read_loop_termination :
    (∀ (chunks : Nat → List Nat) (fuel : Nat) (r : List Nat),
      read_response chunks fuel = some r →
      ∃ j, (chunks j).contains TERMINATOR_BYTE = true) ∧
    (∀ fuel : Nat, read_response (fun _ => []) fuel = none) := by
  constructor
  · intro chunks fuel r h
    exact read_response_go_some chunks fuel 0 [] r h
  · intro fuel
    exact read_response_go_closed fuel 0 []

/-- Claim C9, witness: a stream whose first chunk is the lone terminator
byte makes the loop return it, and the theorem then yields a chunk
containing the terminator. -/
theorem c9_termination_witness :
    read_response (fun _ => [0xF7]) 1 = some [0xF7] ∧
    ∃ j, ((fun _ : Nat => [0xF7]) j).contains TERMINATOR_BYTE = true :=
  ⟨rfl, c9_read_loop_termination.1 (fun _ => [0xF7]) 1 [0xF7] rfl⟩

/-! ### Claim C10 -/

/-- Helper for claim C10: after one PingResponse.__init__ loop over the
shared class dict, channels 1 through 10 hold the fresh decode of the given
frame and every other key keeps its previous binding. -/
theorem pingInitChannels_apply (st : PingClassState) (data : List Nat) (ch : Nat) :
    pingInitChannels st data ch =
      if 1 ≤ ch ∧ ch ≤ 10 then some (mk_ping_data (data.getD (8 + ch) 0))
      else st ch := by
  have hr : List.range' 1 10 = [1, 2, 3, 4, 5, 6, 7, 8, 9, 10] := rfl
  rw [pingInitChannels, hr]
  simp only [List.foldl]
  by_cases h : 1 ≤ ch ∧ ch ≤ 10
  · have hcond : 1 ≤ ch ∧ ch ≤ 10 := h
    rw [if_pos hcond]
    obtain ⟨h1, h2⟩ := h
    interval_cases ch <;> simp
  · rw [if_neg h]
    have n1 : ch ≠ 1 := by omega
    have n2 : ch ≠ 2 := by omega
    have n3 : ch ≠ 3 := by omega
    have n4 : ch ≠ 4 := by omega
    have n5 : ch ≠ 5 := by omega
    have n6 : ch ≠ 6 := by omega
    have n7 : ch ≠ 7 := by omega
    have n8 : ch ≠ 8 := by omega
    have n9 : ch ≠ 9 := by omega
    have n10 : ch ≠ 10 := by omega
    simp [n1, n2, n3, n4, n5, n6, n7, n8, n9, n10]

/-- Claim C10: PingResponse.channels is class-level state shared by all
instances.  Constructing a second PingResponse overwrites every channel
entry, so the dict observed afterwards through any previously constructed
instance equals the dict produced by the second construction alone — the
per-channel results seen through an instance are not determined solely by
the bytes that instance was constructed from. -/
theorem c10_shared_class_dict (st0 st1 st2 : PingClassState) (d1 d2 : List Nat)
    (h1 : pingInitShared st0 d1 = some st1)
    (h2 : pingInitShared st1 d2 = some st2) :
    st2 = pingInitChannels st0 d2 := by
  have e1 : st1 = pingInitChannels st0 d1 := by
    by_cases ha : d1.length = 25
    · by_cases hb : response_valid d1
      · simp [pingInitShared, ha, hb] at h1; exact h1.symm
      · simp [pingInitShared, ha, hb] at h1
    · simp [pingInitShared, ha] at h1
  have e2 : st2 = pingInitChannels st1 d2 := by
    by_cases ha : d2.length = 25
    · by_cases hb : response_valid d2
      · simp [pingInitShared, ha, hb] at h2; exact h2.symm
      · simp [pingInitShared, ha, hb] at h2
    · simp [pingInitShared, ha] at h2
  funext ch
  rw [e2, pingInitChannels_apply st1 d2 ch, pingInitChannels_apply st0 d2 ch]
  by_cases h : 1 ≤ ch ∧ ch ≤ 10
  · simp [h]
  · rw [if_neg h, if_neg h, e1, pingInitChannels_apply st0 d1 ch, if_neg h]

/-- Claim C10, witness: two valid ping frames with different channel-1
status bytes; after both constructions the shared dict equals the second
decode, and the two decodes differ at channel 1, so the first instance no
longer reflects its own bytes. -/
theorem c10_shared_witness :
    pingInitShared (fun _ => none) ping_frame_a
      = some (pingInitChannels (fun _ => none) ping_frame_a) ∧
    pingInitShared (pingInitChannels (fun _ => none) ping_frame_a) ping_frame_b
      = some (pingInitChannels (pingInitChannels (fun _ => none) ping_frame_a)
          ping_frame_b) ∧
    pingInitChannels (pingInitChannels (fun _ => none) ping_frame_a) ping_frame_b
      = pingInitChannels (fun _ => none) ping_frame_b ∧
    pingInitChannels (fun _ => none) ping_frame_b 1
      ≠ pingInitChannels (fun _ => none) ping_frame_a 1 :=
  ⟨rfl, rfl,
   c10_shared_class_dict (fun _ => none) _ _ ping_frame_a ping_frame_b rfl rfl,
   by decide⟩
